import Mathlib

/-
Verification development for the B2B project-management backend
(Express + Mongoose, `src/Backend/src`).  The document database is embedded
shallowly: each Mongoose collection becomes a list of records inside a `DB`
state, `findById` / `findOne` become `List.find?`, `deleteMany` becomes
`List.filter`, and a saved document replaces the record with the same id.
Object ids are strings (as the services compare them with `toString()`),
generated from a `nextId` counter.  A service that can `throw` returns
`Except AppError α × DB`: the error component mirrors the thrown exception
and the `DB` component the database state after the call (for the one
transactional service, `deleteWorkspaceService`, the catch-branch restores
the pre-call state exactly as `session.abortTransaction()` does).
-/

namespace B2B

/-- Fresh object id from the allocation counter. -/
def genId (n : Nat) : String := "oid" ++ toString n

/-- Invite code generated by the workspace schema default. -/
def genInviteCode (n : Nat) : String := "invite" ++ toString n

/-- JavaScript truthiness of an optional string (`undefined` / `null` /
the empty string are falsy), as used by `if (assignedTo)` and
`description || workspace.description` in the services. -/
def optTruthy (o : Option String) : Bool :=
  match o with
  | none => false
  | some s => s ≠ ""

/-- JavaScript truthiness of a (required) string parameter. -/
def strTruthy (s : String) : Bool := s ≠ ""

/-- User document (src/Backend/src/models/user.model.ts): identity record
with a weak `currentWorkspace` back-pointer. -/
structure User where
  id : String
  email : String
  currentWorkspace : Option String
deriving Repr, DecidableEq

/-- Account document (src/Backend/src/models/account.model.ts): one per
external-auth link; the schema declares `providerId` with `unique: true`
(there is no compound index on `(provider, providerId)`). -/
structure Account where
  id : String
  userId : String
  provider : String
  providerId : String
  refreshToken : Option String
deriving Repr, DecidableEq

/-- Workspace document: name/description, one owner, invite code. -/
structure Workspace where
  id : String
  name : String
  description : String
  owner : String
  inviteCode : String
deriving Repr, DecidableEq

/-- Member document: join entity User × Workspace × Role. -/
structure Member where
  id : String
  userId : String
  workspaceId : String
  role : String
deriving Repr, DecidableEq

/-- Role document (roles-permission model): named permission set. -/
structure Role where
  id : String
  name : String
deriving Repr, DecidableEq

/-- Project document: belongs to exactly one workspace. -/
structure Project where
  id : String
  name : String
  description : String
  emoji : String
  workspace : String
  createdBy : String
deriving Repr, DecidableEq

/-- Task document: belongs to one project and (redundantly) to its
workspace. -/
structure Task where
  id : String
  title : String
  description : String
  priority : String
  status : String
  assignedTo : Option String
  createdBy : String
  workspace : String
  project : String
  dueDate : Option String
deriving Repr, DecidableEq

/-- The whole document store, one list per collection, plus the id
allocation counter. -/
structure DB where
  users : List User
  accounts : List Account
  workspaces : List Workspace
  members : List Member
  roles : List Role
  projects : List Project
  tasks : List Task
  nextId : Nat
deriving Repr, DecidableEq

/-- Application errors (src/Backend/src/utils/appError.ts); `jsError`
stands for a plain `throw new Error(...)`. -/
inductive AppError where
  | notFound (msg : String)
  | badRequest (msg : String)
  | unauthorized (msg : String)
  | jsError (msg : String)
deriving Repr, DecidableEq

deriving instance DecidableEq for Except

/-- `createWorkspaceService` (src/Backend/src/services/workspace.service.ts):
looks up the user and the OWNER role, saves a new workspace owned by the
user, saves a member linking the user to it with the OWNER role, and points
the user's `currentWorkspace` at it.  Returns the created workspace. -/
def createWorkspaceService (db : DB) (userId : String) (name : String)
    (description : Option String) : Except AppError Workspace × DB :=
  match db.users.find? (fun u => u.id = userId) with
  | none => (.error (.notFound "User not found"), db)
  | some user =>
    match db.roles.find? (fun r => r.name = "OWNER") with
    | none => (.error (.notFound "Owner role not found"), db)
    | some ownerRole =>
      let wid := genId db.nextId
      let workspace : Workspace :=
        { id := wid, name := name, description := description.getD "",
          owner := user.id, inviteCode := genInviteCode db.nextId }
      let member : Member :=
        { id := genId (db.nextId + 1), userId := user.id,
          workspaceId := wid, role := ownerRole.id }
      let db' : DB :=
        { db with
          workspaces := db.workspaces ++ [workspace],
          members := db.members ++ [member],
          users := db.users.map (fun u =>
            if u.id = userId then { u with currentWorkspace := some wid } else u),
          nextId := db.nextId + 2 }
      (.ok workspace, db')

/-- `updateWorkspaceByIdService` (workspace.service.ts): finds the
workspace, then `workspace.name = name || workspace.name` and
`workspace.description = description || workspace.description`, and saves
the document. -/
def updateWorkspaceByIdService (db : DB) (workspaceId : String)
    (name : String) (description : Option String) :
    Except AppError Workspace × DB :=
  match db.workspaces.find? (fun w => w.id = workspaceId) with
  | none => (.error (.notFound "Workspace not found"), db)
  | some workspace =>
    let updated : Workspace :=
      { workspace with
        name := if strTruthy name then name else workspace.name,
        description := if optTruthy description then description.getD ""
                       else workspace.description }
    (.ok updated,
     { db with workspaces := db.workspaces.map (fun w =>
         if w.id = workspaceId then updated else w) })

/-- Body of `deleteWorkspaceService`'s transaction (workspace.service.ts):
find the workspace, check `workspace.owner.toString() !== userId`, find the
user, `deleteMany` the workspace's projects, tasks and members, repair the
acting user's `currentWorkspace` when it pointed at the deleted workspace
(to the workspace of some remaining membership of that user, else `null`),
and delete the workspace.  Returns the user's final `currentWorkspace`. -/
def deleteWorkspaceCore (db : DB) (workspaceId userId : String) :
    Except AppError (DB × Option String) :=
  match db.workspaces.find? (fun w => w.id = workspaceId) with
  | none => .error (.notFound "Workspace not found")
  | some workspace =>
    if workspace.owner ≠ userId then
      .error (.badRequest "You are not authorized to delete this workspace")
    else
      match db.users.find? (fun u => u.id = userId) with
      | none => .error (.notFound "User not found")
      | some user =>
        let db1 : DB :=
          { db with
            projects := db.projects.filter (fun p => p.workspace ≠ workspaceId),
            tasks := db.tasks.filter (fun t => t.workspace ≠ workspaceId),
            members := db.members.filter (fun m => m.workspaceId ≠ workspaceId) }
        if user.currentWorkspace = some workspaceId then
          let newCW :=
            (db1.members.find? (fun m => m.userId = userId)).map
              (fun m => m.workspaceId)
          .ok ({ db1 with
                 users := db1.users.map (fun u =>
                   if u.id = userId then { u with currentWorkspace := newCW } else u),
                 workspaces := db1.workspaces.filter (fun w => w.id ≠ workspaceId) },
               newCW)
        else
          .ok ({ db1 with
                 workspaces := db1.workspaces.filter (fun w => w.id ≠ workspaceId) },
               user.currentWorkspace)

/-- `deleteWorkspaceService` (workspace.service.ts): the core runs inside a
mongoose session; on success the transaction commits, on any throw the
catch-branch aborts the transaction (restoring the pre-call state) and
rethrows. -/
def deleteWorkspaceService (db : DB) (workspaceId userId : String) :
    Except AppError (Option String) × DB :=
  match deleteWorkspaceCore db workspaceId userId with
  | .ok (db', cw) => (.ok cw, db')
  | .error e => (.error e, db)

/-- Body accepted by `createTaskService` / `updateTaskService`
(src/Backend/src/services/task.service.ts).  `none` stands for an
absent (`undefined`/`null`) optional field. -/
structure TaskBody where
  title : String
  description : Option String
  priority : String
  status : String
  assignedTo : Option String
  dueDate : Option String
deriving Repr, DecidableEq

/-- `createTaskService` (task.service.ts): find the project and require
`project.workspace.toString() === workspaceId`; when `assignedTo` is truthy
require a member linking it to the workspace; then save the task carrying
both the workspace and the project reference. -/
def createTaskService (db : DB) (workspaceId projectId userId : String)
    (body : TaskBody) : Except AppError Task × DB :=
  match db.projects.find? (fun p => p.id = projectId) with
  | none =>
    (.error (.notFound "Project not found or does not belong to this workspace"), db)
  | some project =>
    if project.workspace ≠ workspaceId then
      (.error (.notFound "Project not found or does not belong to this workspace"), db)
    else if optTruthy body.assignedTo ∧
        ¬ ∃ m ∈ db.members, m.userId = body.assignedTo.getD "" ∧
            m.workspaceId = workspaceId then
      (.error (.jsError "Assigned user is not a member of this workspace"), db)
    else
      let task : Task :=
        { id := genId db.nextId,
          title := body.title,
          description := body.description.getD "",
          priority := if strTruthy body.priority then body.priority else "MEDIUM",
          status := if strTruthy body.status then body.status else "TODO",
          assignedTo := body.assignedTo,
          createdBy := userId,
          workspace := workspaceId,
          project := projectId,
          dueDate := body.dueDate }
      (.ok task, { db with tasks := db.tasks ++ [task], nextId := db.nextId + 1 })

/-- The update `findByIdAndUpdate(taskId, {...body})` applies to a task
document: required fields of the body overwrite, absent optional fields
leave the stored value untouched, and neither `project` nor `workspace`
appears in the body. -/
def applyTaskBody (body : TaskBody) (t : Task) : Task :=
  { t with
    title := body.title,
    description := match body.description with
                   | some d => d
                   | none => t.description,
    priority := body.priority,
    status := body.status,
    assignedTo := match body.assignedTo with
                  | some a => some a
                  | none => t.assignedTo,
    dueDate := match body.dueDate with
               | some d => d
               | none => t.dueDate }

/-- `updateTaskService` (task.service.ts): check the project belongs to the
workspace and the task belongs to the project, then
`findByIdAndUpdate(taskId, {...body}, {new: true})`; if the updated
document cannot be read back, throw `BadRequestException`. -/
def updateTaskService (db : DB) (workspaceId projectId taskId : String)
    (body : TaskBody) : Except AppError Task × DB :=
  match db.projects.find? (fun p => p.id = projectId) with
  | none =>
    (.error (.notFound "Project not found or does not belong to this workspace"), db)
  | some project =>
    if project.workspace ≠ workspaceId then
      (.error (.notFound "Project not found or does not belong to this workspace"), db)
    else
      match db.tasks.find? (fun t => t.id = taskId) with
      | none =>
        (.error (.notFound "Task not found or does not belong to this project"), db)
      | some task =>
        if task.project ≠ projectId then
          (.error (.notFound "Task not found or does not belong to this project"), db)
        else
          let db' : DB :=
            { db with tasks := db.tasks.map (fun t =>
                if t.id = taskId then applyTaskBody body t else t) }
          match db'.tasks.find? (fun t => t.id = taskId) with
          | none => (.error (.badRequest "Failed to updated task"), db')
          | some updatedTask => (.ok updatedTask, db')

/-- Read-only phase of `joinWorkspaceByInviteService`
(src/Backend/src/services/member.service.ts): find the workspace by invite
code, reject when a member with this `(userId, workspaceId)` already
exists, and look up the MEMBER role.  Returns the workspace id and the
role; nothing is written yet. -/
def joinCheckPhase (db : DB) (userId inviteCode : String) :
    Except AppError (String × Role) :=
  match db.workspaces.find? (fun w => w.inviteCode = inviteCode) with
  | none => .error (.notFound "Invalid invite code or workspace not found")
  | some workspace =>
    match db.members.find? (fun m =>
        m.userId = userId ∧ m.workspaceId = workspace.id) with
    | some _ => .error (.badRequest "You are already a member of this workspace.")
    | none =>
      match db.roles.find? (fun r => r.name = "MEMBER") with
      | none => .error (.notFound "Role not found")
      | some role => .ok (workspace.id, role)

/-- Modelled from the spec: `member.model.ts` is not under `src/` (only its
callers are).  Per the spec's data model, the `(userId, workspaceId)` pair
of Member is "intended-unique (not actually enforced in code)", so the
schema-level save of a new member document carries no unique index and
always succeeds. -/
def memberInsertRaw (db : DB) (m : Member) : DB :=
  { db with members := db.members ++ [m], nextId := db.nextId + 1 }

/-- `joinWorkspaceByInviteService` (member.service.ts): the check phase
followed by `new MemberModel(...).save()`; returns the workspace id and the
role name. -/
def joinWorkspaceByInviteService (db : DB) (userId inviteCode : String) :
    Except AppError (String × String) × DB :=
  match joinCheckPhase db userId inviteCode with
  | .error e => (.error e, db)
  | .ok (wid, role) =>
    (.ok (wid, role.name),
     memberInsertRaw db
       { id := genId db.nextId, userId := userId, workspaceId := wid,
         role := role.id })

/-- Saving a new Account document under the account schema
(src/Backend/src/models/account.model.ts): the schema declares
`providerId` with `unique: true`, so the save is rejected with a duplicate
key error whenever an account with the same `providerId` already exists. -/
def insertAccount (db : DB) (a : Account) : Except AppError Unit × DB :=
  if db.accounts.any (fun b => b.providerId = a.providerId) then
    (.error (.jsError "E11000 duplicate key error collection: accounts index: providerId"), db)
  else
    (.ok (), { db with accounts := db.accounts ++ [a] })

/-- `getMemberRoleInWorkspace` (member.service.ts): find the workspace,
find the member linking the acting user to it (populate its role), throw
`UnauthorizedException` when there is none. -/
def getMemberRoleInWorkspace (db : DB) (userId workspaceId : String) :
    Except AppError (Option String) :=
  match db.workspaces.find? (fun w => w.id = workspaceId) with
  | none => .error (.notFound "Workspace not found")
  | some _ =>
    match db.members.find? (fun m =>
        m.userId = userId ∧ m.workspaceId = workspaceId) with
    | none => .error (.unauthorized "You are not a member of this workspace")
    | some member =>
      .ok ((db.roles.find? (fun r => r.id = member.role)).map (fun r => r.name))

/-
Control-flow model of the controllers.  Each workspace- or project-scoped
controller body is abstracted to the ordered list of its authorization and
service steps: `resolveRole` stands for an `await getMemberRoleInWorkspace`
call, `guardPerm p` for a `roleGuard(role, [Permissions.p])` call and
`runService s` for the `await s(...)` call of the business service.  The
lists are read off the controller sources line by line.
-/

/-- One step of a controller body. -/
inductive CtrlStep where
  | resolveRole
  | guardPerm (perm : String)
  | runService (service : String)
deriving Repr, DecidableEq

/-- `createProjectController` (src/unnamed/part_003, project controller):
resolve role, `roleGuard(role, [Permissions.CREATE_PROJECT])`, then
`createProjectService`. -/
def createProjectControllerSteps : List CtrlStep :=
  [.resolveRole, .guardPerm "CREATE_PROJECT", .runService "createProjectService"]

/-- `getAllProjectsInWorkspaceController` (part_003): resolve role,
`roleGuard(role, [Permissions.VIEW_ONLY])`, then
`getAllProjectInWorkspaceService`. -/
def getAllProjectsInWorkspaceControllerSteps : List CtrlStep :=
  [.resolveRole, .guardPerm "VIEW_ONLY", .runService "getAllProjectInWorkspaceService"]

/-- `getProjectByIdAndWorkspaceIdController` (part_003): resolve role,
`roleGuard(role, [Permissions.VIEW_ONLY])`, then
`getProjectByIdAndWorkspaceIdService`. -/
def getProjectByIdAndWorkspaceIdControllerSteps : List CtrlStep :=
  [.resolveRole, .guardPerm "VIEW_ONLY",
   .runService "getProjectByIdAndWorkspaceIdService"]

/-- `getWorkspaceByIdController` (src/unnamed/part_002, workspace
controller): `await getMemberRoleInWorkspace(userId, workspaceId)` and then
directly `await getWorkspaceByIdService(workspaceId)` — no `roleGuard`
call appears in its body. -/
def getWorkspaceByIdControllerSteps : List CtrlStep :=
  [.resolveRole, .runService "getWorkspaceByIdService"]

/-- `getWorkspaceMembersController` (part_002): resolve role,
`roleGuard(role, [Permissions.VIEW_ONLY])`, then
`getWorkspaceMembersService`. -/
def getWorkspaceMembersControllerSteps : List CtrlStep :=
  [.resolveRole, .guardPerm "VIEW_ONLY", .runService "getWorkspaceMembersService"]

/-- `getWorkspaceAnalyticsController` (part_002): the body only parses the
request parameters; no role resolution, no guard and no service call. -/
def getWorkspaceAnalyticsControllerSteps : List CtrlStep := []

/-- The workspace-scoped and project-scoped controllers whose code is in
the repository snapshot, with their step traces.  (The controllers that
target no existing workspace — `createWorkspaceController`,
`getAllWorkspaceUserIsMemberController` — are not workspace-scoped.) -/
def scopedControllers : List (String × List CtrlStep) :=
  [("createProjectController", createProjectControllerSteps),
   ("getAllProjectsInWorkspaceController", getAllProjectsInWorkspaceControllerSteps),
   ("getProjectByIdAndWorkspaceIdController", getProjectByIdAndWorkspaceIdControllerSteps),
   ("getWorkspaceByIdController", getWorkspaceByIdControllerSteps),
   ("getWorkspaceMembersController", getWorkspaceMembersControllerSteps),
   ("getWorkspaceAnalyticsController", getWorkspaceAnalyticsControllerSteps)]

/-- `fullyGuarded steps r g = true` iff along `steps`, every `runService`
is preceded both by a `resolveRole` and by a `guardPerm` (the flags `r`,
`g` record which of the two already happened). -/
def fullyGuarded : List CtrlStep → Bool → Bool → Bool
  | [], _, _ => true
  | .resolveRole :: rest, _, g => fullyGuarded rest true g
  | .guardPerm _ :: rest, r, _ => fullyGuarded rest r true
  | .runService _ :: rest, r, g => r && g && fullyGuarded rest r g

/-- `roleResolvedBefore steps r = true` iff along `steps`, every
`runService` is preceded by a `resolveRole`. -/
def roleResolvedBefore : List CtrlStep → Bool → Bool
  | [], _ => true
  | .resolveRole :: rest, _ => roleResolvedBefore rest true
  | .guardPerm _ :: rest, r => roleResolvedBefore rest r
  | .runService _ :: rest, r => r && roleResolvedBefore rest r

/-- Invariant of claim C4: every task's recorded workspace agrees with the
workspace of the project it belongs to. -/
def taskWorkspaceInv (db : DB) : Prop :=
  ∀ t ∈ db.tasks, ∀ p ∈ db.projects, p.id = t.project → t.workspace = p.workspace

/-- Project ids identify project documents (no two distinct project
records share an id). -/
def projectIdsUnique (db : DB) : Prop :=
  ∀ p1 ∈ db.projects, ∀ p2 ∈ db.projects, p1.id = p2.id → p1 = p2

/-- Invariant of claim C6: no two account records share the same
`(provider, providerId)` pair. -/
def accountPairUnique (db : DB) : Prop :=
  db.accounts.Pairwise (fun a b => ¬ (a.provider = b.provider ∧ a.providerId = b.providerId))

/-- The empty document store. -/
def emptyDb : DB :=
  { users := [], accounts := [], workspaces := [], members := [], roles := [],
    projects := [], tasks := [], nextId := 0 }

/-- Store with one workspace `w1` owned by `u1` and a second member `u2`;
both users' `currentWorkspace` points at `w1`. -/
def exDb1 : DB :=
  { users := [{ id := "u1", email := "a@x", currentWorkspace := some "w1" },
              { id := "u2", email := "b@x", currentWorkspace := some "w1" }],
    accounts := [],
    workspaces := [{ id := "w1", name := "W", description := "D",
                     owner := "u1", inviteCode := "inv1" }],
    members := [{ id := "m1", userId := "u1", workspaceId := "w1", role := "r1" },
                { id := "m2", userId := "u2", workspaceId := "w1", role := "r1" }],
    roles := [{ id := "r1", name := "OWNER" }],
    projects := [], tasks := [], nextId := 100 }

/-- Store with one workspace `w1` (owner `u1`, member `u1`), one project
`p1` in `w1` and one task `t1` under `p1`; used as concrete input for the
witnesses. -/
def exDbW : DB :=
  { users := [{ id := "u1", email := "a@x", currentWorkspace := some "w1" }],
    accounts := [{ id := "a1", userId := "u1", provider := "GOOGLE",
                   providerId := "g-1", refreshToken := none }],
    workspaces := [{ id := "w1", name := "W", description := "D",
                     owner := "u1", inviteCode := "inv1" }],
    members := [{ id := "m1", userId := "u1", workspaceId := "w1", role := "r1" }],
    roles := [{ id := "r1", name := "OWNER" }, { id := "r2", name := "MEMBER" }],
    projects := [{ id := "p1", name := "P", description := "", emoji := "e",
                   workspace := "w1", createdBy := "u1" }],
    tasks := [{ id := "t1", title := "T", description := "", priority := "HIGH",
                status := "TODO", assignedTo := none, createdBy := "u1",
                workspace := "w1", project := "p1", dueDate := none }],
    nextId := 100 }

/-- Store with workspace `w1` reachable under invite code `inv1`, the
MEMBER role seeded, and a user `u2` who is not yet a member. -/
def exDb7 : DB :=
  { users := [{ id := "u2", email := "b@x", currentWorkspace := none }],
    accounts := [],
    workspaces := [{ id := "w1", name := "W", description := "D",
                     owner := "u1", inviteCode := "inv1" }],
    members := [],
    roles := [{ id := "r2", name := "MEMBER" }],
    projects := [], tasks := [], nextId := 100 }

/-- The member document the first of two racing join requests saves. -/
def exDb7MemberA : Member :=
  { id := genId 100, userId := "u2", workspaceId := "w1", role := "r2" }

/-- The member document the second racing join request saves. -/
def exDb7MemberB : Member :=
  { id := genId 101, userId := "u2", workspaceId := "w1", role := "r2" }

/-- The state `exDb1` reaches after `u1` deletes `w1`: projects, tasks,
members and the workspace are gone, `u1`'s pointer was repaired to null,
and `u2`'s pointer still reads the deleted workspace. -/
def exDb1After : DB :=
  { users := [{ id := "u1", email := "a@x", currentWorkspace := none },
              { id := "u2", email := "b@x", currentWorkspace := some "w1" }],
    accounts := [],
    workspaces := [],
    members := [],
    roles := [{ id := "r1", name := "OWNER" }],
    projects := [], tasks := [], nextId := 100 }

/-- When the workspace is found but owned by someone else, the transaction
body throws `BadRequestException`. -/
theorem deleteWorkspaceCore_not_owner (db : DB) (wid uid : String) (w : Workspace)
    (hw : db.workspaces.find? (fun x => x.id = wid) = some w)
    (hne : w.owner ≠ uid) :
    deleteWorkspaceCore db wid uid =
      .error (.badRequest "You are not authorized to delete this workspace") := by
  simp only [deleteWorkspaceCore, hw]
  rw [if_pos hne]

/-- When the workspace is found, owned by the caller, but the user record
is missing, the transaction body throws `NotFoundException`. -/
theorem deleteWorkspaceCore_user_missing (db : DB) (wid uid : String) (w : Workspace)
    (hw : db.workspaces.find? (fun x => x.id = wid) = some w)
    (heq : w.owner = uid)
    (hu : db.users.find? (fun u => u.id = uid) = none) :
    deleteWorkspaceCore db wid uid = .error (.notFound "User not found") := by
  simp only [deleteWorkspaceCore, hw, hu]
  rw [if_neg (not_not_intro heq)]

/-- When the workspace is found, owned by the caller, and the user record
exists, the transaction body succeeds. -/
theorem deleteWorkspaceCore_ok (db : DB) (wid uid : String) (w : Workspace) (user : User)
    (hw : db.workspaces.find? (fun x => x.id = wid) = some w)
    (heq : w.owner = uid)
    (hu : db.users.find? (fun u => u.id = uid) = some user) :
    ∃ r, deleteWorkspaceCore db wid uid = .ok r := by
  simp only [deleteWorkspaceCore, hw, hu]
  rw [if_neg (not_not_intro heq)]
  by_cases hcw : user.currentWorkspace = some wid
  · rw [if_pos hcw]
    exact ⟨_, rfl⟩
  · rw [if_neg hcw]
    exact ⟨_, rfl⟩

/-- C3: deleteWorkspaceService is atomic — whenever the call throws (for
any reason: workspace not found, acting user not the owner, user record
not found), the transaction is aborted and the returned database state is
exactly the state before the call. -/
theorem deleteWorkspaceService_atomic (db : DB) (wid uid : String) (e : AppError)
    (h : (deleteWorkspaceService db wid uid).1 = .error e) :
    (deleteWorkspaceService db wid uid).2 = db := by
  unfold deleteWorkspaceService at h ⊢
  cases hc : deleteWorkspaceCore db wid uid with
  | ok r =>
    rw [hc] at h
    obtain ⟨db', cw⟩ := r
    simp at h
  | error e2 =>
    rfl

/-- Witness for C3: on the empty store the call throws (workspace not
found) and the state is unchanged. -/
theorem deleteWorkspaceService_atomic_witness :
    (deleteWorkspaceService emptyDb "w1" "u1").2 = emptyDb :=
  deleteWorkspaceService_atomic emptyDb "w1" "u1"
    (.notFound "Workspace not found") (by decide)

/-- C2 counterexample: not every workspace-scoped controller checks a
required permission before its service runs — `getWorkspaceByIdController`
is among the scoped controllers, its body runs `getWorkspaceByIdService`,
yet its trace resolves the role without any `roleGuard` step. -/
theorem getWorkspaceByIdController_unguarded :
    ("getWorkspaceByIdController", getWorkspaceByIdControllerSteps) ∈ scopedControllers ∧
    CtrlStep.runService "getWorkspaceByIdService" ∈ getWorkspaceByIdControllerSteps ∧
    fullyGuarded getWorkspaceByIdControllerSteps false false = false ∧
    scopedControllers.all (fun c => fullyGuarded c.2 false false) = false := by
  decide

/-- C2 amended: every workspace- or project-scoped controller in the
snapshot resolves the acting user's role (getMemberRoleInWorkspace)
before running its service, and every one of them except
`getWorkspaceByIdController` also checks a required permission (roleGuard)
before the service runs; `getWorkspaceByIdController` runs its service
after role resolution but without any permission check. -/
theorem scopedControllers_guarded :
    scopedControllers.all (fun c => roleResolvedBefore c.2 false) = true ∧
    scopedControllers.all (fun c =>
      c.1 == "getWorkspaceByIdController" || fullyGuarded c.2 false false) = true ∧
    fullyGuarded getWorkspaceByIdControllerSteps false false = false := by
  decide

/-- C7: the `(userId, workspaceId)` pair of Member is not enforced unique.
Two racing join requests for the same user and invite code both pass the
read-only check phase against the same state, and after both schema-level
inserts two member records share `(u2, w1)`; yet an individual
(sequential) duplicate join is rejected with `BadRequestException` and
creates no member. -/
theorem memberPairUniqueness_not_enforced :
    joinCheckPhase exDb7 "u2" "inv1" = .ok ("w1", { id := "r2", name := "MEMBER" }) ∧
    ((memberInsertRaw (memberInsertRaw exDb7 exDb7MemberA) exDb7MemberB).members.countP
      (fun m => m.userId = "u2" ∧ m.workspaceId = "w1")) = 2 ∧
    (joinWorkspaceByInviteService (memberInsertRaw exDb7 exDb7MemberA) "u2" "inv1").1 =
      .error (.badRequest "You are already a member of this workspace.") ∧
    (joinWorkspaceByInviteService (memberInsertRaw exDb7 exDb7MemberA) "u2" "inv1").2 =
      memberInsertRaw exDb7 exDb7MemberA := by
  decide

/-- C9 counterexample: the stated biconditional fails when the project
check fails first.  On the empty store with `assignedTo = "u9"` the
right-hand side holds — `assignedTo` is provided and no member links `u9`
to the workspace (there are no members at all) — yet the service raises
the project `NotFoundException`, not "Assigned user is not a member of
this workspace", so the left-hand side is false. -/
theorem createTask_assignee_iff_counterexample :
    (createTaskService emptyDb "w1" "p1" "u1"
        { title := "T", description := none, priority := "HIGH",
          status := "TODO", assignedTo := some "u9", dueDate := none }).1 =
      .error (.notFound "Project not found or does not belong to this workspace") ∧
    optTruthy (some "u9") = true ∧
    emptyDb.members = [] ∧
    ¬ ((createTaskService emptyDb "w1" "p1" "u1"
          { title := "T", description := none, priority := "HIGH",
            status := "TODO", assignedTo := some "u9", dueDate := none }).1 =
        .error (.jsError "Assigned user is not a member of this workspace") ↔
      (optTruthy (some "u9") = true ∧
        ¬ ∃ m ∈ emptyDb.members, m.userId = (some "u9").getD "" ∧
            m.workspaceId = "w1")) := by
  decide

/-- C5: only the owner can delete a workspace.  If the workspace exists
and its owner differs from the calling user, the call throws
`BadRequestException ("You are not authorized to delete this workspace")`
and the state is unchanged; if the caller is the owner, the call never
fails with that authorization error. -/
theorem deleteWorkspace_owner_only (db : DB) (wid uid : String) (w : Workspace)
    (hw : db.workspaces.find? (fun x => x.id = wid) = some w) :
    (w.owner ≠ uid →
      deleteWorkspaceService db wid uid =
        (.error (.badRequest "You are not authorized to delete this workspace"), db)) ∧
    (w.owner = uid → ∀ e, (deleteWorkspaceService db wid uid).1 = .error e →
      e ≠ .badRequest "You are not authorized to delete this workspace") := by
  constructor
  · intro hne
    unfold deleteWorkspaceService
    rw [deleteWorkspaceCore_not_owner db wid uid w hw hne]
  · intro heq e h1
    cases hu : db.users.find? (fun u => u.id = uid) with
    | none =>
      unfold deleteWorkspaceService at h1
      rw [deleteWorkspaceCore_user_missing db wid uid w hw heq hu] at h1
      simp only [Except.error.injEq] at h1
      rw [← h1]
      intro hbad
      exact absurd hbad (by simp)
    | some user =>
      obtain ⟨r, hcore⟩ := deleteWorkspaceCore_ok db wid uid w user hw heq hu
      unfold deleteWorkspaceService at h1
      rw [hcore] at h1
      obtain ⟨db', cw⟩ := r
      simp at h1

/-- Witness for C5: in `exDb1`, user `u2` is not the owner of `w1`; the
delete call fails with the authorization error and changes nothing. -/
theorem deleteWorkspace_owner_only_witness :
    deleteWorkspaceService exDb1 "w1" "u2" =
      (.error (.badRequest "You are not authorized to delete this workspace"), exDb1) :=
  (deleteWorkspace_owner_only exDb1 "w1" "u2"
      { id := "w1", name := "W", description := "D", owner := "u1", inviteCode := "inv1" }
      (by decide)).1 (by decide)

/-- C10: updateWorkspaceByIdService only rewrites the name and the
description of the target workspace.  The result state differs from the
input only in the workspace collection, where exactly the documents with
the target id are replaced by the updated document; the updated document
keeps its id, owner and invite code; an empty new name keeps the previous
name, and an omitted or empty description keeps the previous
description. -/
theorem updateWorkspace_frame (db : DB) (wid name : String) (description : Option String)
    (w : Workspace) (hw : db.workspaces.find? (fun x => x.id = wid) = some w) :
    ∃ updated : Workspace,
      updateWorkspaceByIdService db wid name description =
        (.ok updated,
         { db with workspaces := db.workspaces.map (fun x =>
             if x.id = wid then updated else x) }) ∧
      updated.id = w.id ∧ updated.owner = w.owner ∧ updated.inviteCode = w.inviteCode ∧
      updated.name = (if strTruthy name then name else w.name) ∧
      updated.description =
        (if optTruthy description then description.getD "" else w.description) ∧
      (∀ x ∈ db.workspaces, x.id ≠ wid →
        x ∈ (updateWorkspaceByIdService db wid name description).2.workspaces) := by
  refine ⟨{ w with
             name := if strTruthy name then name else w.name,
             description := if optTruthy description then description.getD ""
                            else w.description }, ?_, rfl, rfl, rfl, rfl, rfl, ?_⟩
  · simp only [updateWorkspaceByIdService, hw]
  · intro x hx hne
    simp only [updateWorkspaceByIdService, hw]
    refine List.mem_map.mpr ⟨x, hx, ?_⟩
    simp [hne]

/-- Witness for C10: updating `w1` in `exDbW` with an empty name and no
description keeps both fields. -/
theorem updateWorkspace_frame_witness :
    ∃ updated : Workspace,
      updateWorkspaceByIdService exDbW "w1" "" none =
        (.ok updated,
         { exDbW with workspaces := exDbW.workspaces.map (fun x =>
             if x.id = "w1" then updated else x) }) ∧
      updated.id = "w1" ∧ updated.owner = "u1" ∧ updated.inviteCode = "inv1" ∧
      updated.name = (if strTruthy "" then "" else "W") ∧
      updated.description = (if optTruthy none then (none : Option String).getD ""
                             else "D") ∧
      (∀ x ∈ exDbW.workspaces, x.id ≠ "w1" →
        x ∈ (updateWorkspaceByIdService exDbW "w1" "" none).2.workspaces) :=
  updateWorkspace_frame exDbW "w1" "" none
    { id := "w1", name := "W", description := "D", owner := "u1", inviteCode := "inv1" }
    (by decide)

/-- C6: the account schema keeps `(provider, providerId)` pairs unique.
The empty store is pair-unique, and saving an account under the schema —
whose unique index on `providerId` rejects any save that duplicates an
existing `providerId` — preserves pair-uniqueness of the store. -/
theorem accountPairUnique_enforced (db : DB) (a : Account)
    (h : accountPairUnique db) :
    accountPairUnique emptyDb ∧ accountPairUnique (insertAccount db a).2 := by
  constructor
  · exact List.Pairwise.nil
  · unfold insertAccount accountPairUnique
    split
    · exact h
    · rename_i hnodup
      simp only [List.pairwise_append]
      refine ⟨h, List.pairwise_singleton _ _, ?_⟩
      intro x hx y hy
      simp only [List.mem_singleton] at hy
      subst hy
      intro ⟨_, hpid⟩
      exact hnodup (List.any_eq_true.mpr ⟨x, hx, by simp [hpid]⟩)

/-- Witness for C6: saving a second GOOGLE account with the already-used
`providerId` `g-1` into `exDbW` leaves the store pair-unique (the save is
rejected by the unique index). -/
theorem accountPairUnique_enforced_witness :
    accountPairUnique emptyDb ∧
    accountPairUnique (insertAccount exDbW
      { id := "a2", userId := "u1", provider := "GOOGLE", providerId := "g-1",
        refreshToken := none }).2 :=
  accountPairUnique_enforced exDbW
    { id := "a2", userId := "u1", provider := "GOOGLE", providerId := "g-1",
      refreshToken := none }
    (by simp [accountPairUnique, exDbW])

/-- C9 amended: provided the project exists and belongs to the given
workspace, createTaskService raises "Assigned user is not a member of this
workspace" — and creates no task — if and only if `assignedTo` is provided
(non-null, non-empty) and no member record links that user to the
workspace; when `assignedTo` is absent the membership check is skipped and
the task is created without an assignee. -/
theorem createTask_assignee_check (db : DB) (wid pid uid : String) (body : TaskBody)
    (p : Project) (hp : db.projects.find? (fun x => x.id = pid) = some p)
    (hpw : p.workspace = wid) :
    ((createTaskService db wid pid uid body).1 =
        .error (.jsError "Assigned user is not a member of this workspace") ↔
      (optTruthy body.assignedTo = true ∧
        ¬ ∃ m ∈ db.members, m.userId = body.assignedTo.getD "" ∧
            m.workspaceId = wid)) ∧
    ((createTaskService db wid pid uid body).1 =
        .error (.jsError "Assigned user is not a member of this workspace") →
      (createTaskService db wid pid uid body).2 = db) ∧
    (optTruthy body.assignedTo = false →
      ∃ t : Task, (createTaskService db wid pid uid body).1 = .ok t ∧
        t.assignedTo = body.assignedTo ∧
        (createTaskService db wid pid uid body).2.tasks = db.tasks ++ [t]) := by
  by_cases hc : optTruthy body.assignedTo = true ∧
      ¬ ∃ m ∈ db.members, m.userId = body.assignedTo.getD "" ∧ m.workspaceId = wid
  · have hres : createTaskService db wid pid uid body =
        (.error (.jsError "Assigned user is not a member of this workspace"), db) := by
      simp only [createTaskService, hp]
      rw [if_neg (not_not_intro hpw), if_pos hc]
    refine ⟨?_, ?_, ?_⟩
    · rw [hres]
      exact iff_of_true rfl hc
    · intro _
      rw [hres]
    · intro hfalse
      exact absurd hc.1 (by simp [hfalse])
  · have hres : ∃ t : Task, createTaskService db wid pid uid body =
        (.ok t, { db with tasks := db.tasks ++ [t], nextId := db.nextId + 1 }) ∧
        t.assignedTo = body.assignedTo := by
      simp only [createTaskService, hp]
      rw [if_neg (not_not_intro hpw), if_neg hc]
      exact ⟨_, rfl, rfl⟩
    obtain ⟨t, hres, hass⟩ := hres
    refine ⟨?_, ?_, ?_⟩
    · rw [hres]
      exact iff_of_false (by simp) hc
    · intro habs
      rw [hres] at habs
      simp at habs
    · intro _
      exact ⟨t, by rw [hres], hass, by rw [hres]⟩

/-- Witness for C9: on `exDbW` (project `p1` in workspace `w1`) with an
absent `assignedTo`, the service skips the membership check and creates an
unassigned task. -/
theorem createTask_assignee_check_witness :
    ((createTaskService exDbW "w1" "p1" "u1"
        { title := "T2", description := none, priority := "LOW",
          status := "TODO", assignedTo := none, dueDate := none }).1 =
        .error (.jsError "Assigned user is not a member of this workspace") ↔
      (optTruthy (none : Option String) = true ∧
        ¬ ∃ m ∈ exDbW.members, m.userId = (none : Option String).getD "" ∧
            m.workspaceId = "w1")) ∧
    ((createTaskService exDbW "w1" "p1" "u1"
        { title := "T2", description := none, priority := "LOW",
          status := "TODO", assignedTo := none, dueDate := none }).1 =
        .error (.jsError "Assigned user is not a member of this workspace") →
      (createTaskService exDbW "w1" "p1" "u1"
        { title := "T2", description := none, priority := "LOW",
          status := "TODO", assignedTo := none, dueDate := none }).2 = exDbW) ∧
    (optTruthy (none : Option String) = false →
      ∃ t : Task, (createTaskService exDbW "w1" "p1" "u1"
          { title := "T2", description := none, priority := "LOW",
            status := "TODO", assignedTo := none, dueDate := none }).1 = .ok t ∧
        t.assignedTo = none ∧
        (createTaskService exDbW "w1" "p1" "u1"
          { title := "T2", description := none, priority := "LOW",
            status := "TODO", assignedTo := none, dueDate := none }).2.tasks =
          exDbW.tasks ++ [t]) :=
  createTask_assignee_check exDbW "w1" "p1" "u1"
    { title := "T2", description := none, priority := "LOW",
      status := "TODO", assignedTo := none, dueDate := none }
    { id := "p1", name := "P", description := "", emoji := "e",
      workspace := "w1", createdBy := "u1" }
    (by decide) (by decide)

/-- C8: with the user and the OWNER role present, createWorkspaceService
returns a fresh workspace owned by that user, adds exactly one member
record linking the user to the new workspace (carrying the OWNER role),
and points the user's `currentWorkspace` at the new workspace. -/
theorem createWorkspace_spec (db : DB) (userId name : String) (description : Option String)
    (user : User) (hu : db.users.find? (fun u => u.id = userId) = some user)
    (ownerRole : Role) (hr : db.roles.find? (fun r => r.name = "OWNER") = some ownerRole)
    (hfreshM : ∀ m ∈ db.members, m.workspaceId ≠ genId db.nextId) :
    ∃ w : Workspace,
      (createWorkspaceService db userId name description).1 = .ok w ∧
      w.id = genId db.nextId ∧
      w.owner = userId ∧
      w ∈ (createWorkspaceService db userId name description).2.workspaces ∧
      ((createWorkspaceService db userId name description).2.members.countP
        (fun m => m.userId = userId ∧ m.workspaceId = genId db.nextId)) = 1 ∧
      (∃ m ∈ (createWorkspaceService db userId name description).2.members,
        m.userId = userId ∧ m.workspaceId = genId db.nextId ∧ m.role = ownerRole.id) ∧
      (∀ u' ∈ (createWorkspaceService db userId name description).2.users,
        u'.id = userId → u'.currentWorkspace = some (genId db.nextId)) ∧
      (∃ u' ∈ (createWorkspaceService db userId name description).2.users,
        u'.id = userId ∧ u'.currentWorkspace = some (genId db.nextId)) := by
  have huid : user.id = userId := by
    have h1 := List.find?_some hu
    simpa using h1
  simp only [createWorkspaceService, hu, hr]
  refine ⟨_, rfl, rfl, huid, ?_, ?_, ?_, ?_, ?_⟩
  · exact List.mem_append_right _ (List.mem_singleton.mpr rfl)
  · rw [List.countP_append, List.countP_eq_zero.mpr, Nat.zero_add]
    · simp [huid]
    · intro m hm
      simp only [decide_eq_true_eq, not_and]
      exact fun _ => hfreshM m hm
  · exact ⟨_, List.mem_append_right _ (List.mem_singleton.mpr rfl), huid, rfl, rfl⟩
  · intro u' hu' hid
    obtain ⟨u0, hu0, rfl⟩ := List.mem_map.mp hu'
    by_cases h0 : u0.id = userId
    · simp [h0]
    · rw [if_neg h0] at hid ⊢
      exact absurd hid h0
  · refine ⟨{ user with currentWorkspace := some (genId db.nextId) }, ?_, huid, rfl⟩
    refine List.mem_map.mpr ⟨user, List.mem_of_find?_eq_some hu, ?_⟩
    simp [huid]

/-- Witness for C8: creating a workspace for `u1` in `exDbW`. -/
theorem createWorkspace_spec_witness :
    ∃ w : Workspace,
      (createWorkspaceService exDbW "u1" "New" none).1 = .ok w ∧
      w.id = genId exDbW.nextId ∧
      w.owner = "u1" ∧
      w ∈ (createWorkspaceService exDbW "u1" "New" none).2.workspaces ∧
      ((createWorkspaceService exDbW "u1" "New" none).2.members.countP
        (fun m => m.userId = "u1" ∧ m.workspaceId = genId exDbW.nextId)) = 1 ∧
      (∃ m ∈ (createWorkspaceService exDbW "u1" "New" none).2.members,
        m.userId = "u1" ∧ m.workspaceId = genId exDbW.nextId ∧
          m.role = ({ id := "r1", name := "OWNER" } : Role).id) ∧
      (∀ u' ∈ (createWorkspaceService exDbW "u1" "New" none).2.users,
        u'.id = "u1" → u'.currentWorkspace = some (genId exDbW.nextId)) ∧
      (∃ u' ∈ (createWorkspaceService exDbW "u1" "New" none).2.users,
        u'.id = "u1" ∧ u'.currentWorkspace = some (genId exDbW.nextId)) :=
  createWorkspace_spec exDbW "u1" "New" none
    { id := "u1", email := "a@x", currentWorkspace := some "w1" } (by decide)
    { id := "r1", name := "OWNER" } (by decide)
    (by decide)

/-- The task update keeps every task's id, project and workspace. -/
theorem map_proj_taskUpdate (l : List Task) (tid : String) (body : TaskBody) :
    (l.map (fun t => if t.id = tid then applyTaskBody body t else t)).map
        (fun t => (t.id, t.project, t.workspace)) =
      l.map (fun t => (t.id, t.project, t.workspace)) := by
  induction l with
  | nil => rfl
  | cons a l ih =>
    simp only [List.map_cons, ih, List.cons.injEq, and_true]
    by_cases h : a.id = tid
    · simp [h, applyTaskBody]
    · simp [h]

/-- In the branch where all checks of updateTaskService pass, the result
state replaces exactly the task documents with the target id by their
updated version. -/
theorem updateTaskService_state (db : DB) (wid pid tid : String) (body : TaskBody)
    (p : Project) (hp : db.projects.find? (fun x => x.id = pid) = some p)
    (hpw : p.workspace = wid)
    (task : Task) (ht : db.tasks.find? (fun t => t.id = tid) = some task)
    (htp : task.project = pid) :
    (updateTaskService db wid pid tid body).2 =
      { db with tasks := db.tasks.map (fun t =>
          if t.id = tid then applyTaskBody body t else t) } := by
  simp only [updateTaskService, hp, ht]
  rw [if_neg (not_not_intro hpw), if_neg (not_not_intro htp)]
  split <;> rfl

/-- C4: both task mutations preserve the invariant that a task's recorded
workspace equals the workspace of its project.  createTaskService rejects
with `NotFoundException` (and changes nothing) whenever no project with
the given id belongs to the given workspace; on any outcome the result
state still satisfies the invariant; updateTaskService also keeps the
invariant and never changes any task's project or workspace (so a task
cannot move to a project in a different workspace). -/
theorem task_workspace_invariant (db : DB) (wid pid uid tid : String) (body : TaskBody)
    (hids : projectIdsUnique db) (hinv : taskWorkspaceInv db) :
    ((∀ p ∈ db.projects, p.id = pid → p.workspace ≠ wid) →
      (createTaskService db wid pid uid body).1 =
        .error (.notFound "Project not found or does not belong to this workspace") ∧
      (createTaskService db wid pid uid body).2 = db) ∧
    taskWorkspaceInv (createTaskService db wid pid uid body).2 ∧
    taskWorkspaceInv (updateTaskService db wid pid tid body).2 ∧
    ((updateTaskService db wid pid tid body).2.tasks.map
        (fun t => (t.id, t.project, t.workspace)) =
      db.tasks.map (fun t => (t.id, t.project, t.workspace))) := by
  refine ⟨?_, ?_, ?_, ?_⟩
  · intro hmis
    cases hp : db.projects.find? (fun x => x.id = pid) with
    | none =>
      simp [createTaskService, hp]
    | some p =>
      have hpid : p.id = pid := by
        have h1 := List.find?_some hp
        simpa using h1
      have hne : p.workspace ≠ wid :=
        hmis p (List.mem_of_find?_eq_some hp) hpid
      simp only [createTaskService, hp]
      rw [if_pos hne]
      exact ⟨rfl, rfl⟩
  · cases hp : db.projects.find? (fun x => x.id = pid) with
    | none =>
      simp only [createTaskService, hp]
      exact hinv
    | some p =>
      have hpid : p.id = pid := by
        have h1 := List.find?_some hp
        simpa using h1
      by_cases hpw : p.workspace = wid
      · simp only [createTaskService, hp]
        rw [if_neg (not_not_intro hpw)]
        by_cases hc : optTruthy body.assignedTo = true ∧
            ¬ ∃ m ∈ db.members, m.userId = body.assignedTo.getD "" ∧
                m.workspaceId = wid
        · rw [if_pos hc]
          exact hinv
        · rw [if_neg hc]
          intro t ht p' hp' hpid'
          rcases List.mem_append.mp ht with told | tnew
          · exact hinv t told p' hp' hpid'
          · rw [List.mem_singleton.mp tnew] at hpid' ⊢
            have hp'p : p' = p := hids p' hp' p (List.mem_of_find?_eq_some hp)
              (by rw [hpid', hpid])
            rw [hp'p, hpw]
      · simp only [createTaskService, hp]
        rw [if_pos hpw]
        exact hinv
  · cases hp : db.projects.find? (fun x => x.id = pid) with
    | none =>
      simp only [updateTaskService, hp]
      exact hinv
    | some p =>
      by_cases hpw : p.workspace = wid
      · cases ht : db.tasks.find? (fun t => t.id = tid) with
        | none =>
          simp only [updateTaskService, hp, ht]
          rw [if_neg (not_not_intro hpw)]
          exact hinv
        | some task =>
          by_cases htp : task.project = pid
          · rw [updateTaskService_state db wid pid tid body p hp hpw task ht htp]
            intro t htm p' hp' hpid'
            obtain ⟨t0, ht0, rfl⟩ := List.mem_map.mp htm
            by_cases h0 : t0.id = tid
            · rw [if_pos h0] at hpid' ⊢
              exact hinv t0 ht0 p' hp' hpid'
            · rw [if_neg h0] at hpid' ⊢
              exact hinv t0 ht0 p' hp' hpid'
          · simp only [updateTaskService, hp, ht]
            rw [if_neg (not_not_intro hpw), if_pos htp]
            exact hinv
      · simp only [updateTaskService, hp]
        rw [if_pos hpw]
        exact hinv
  · cases hp : db.projects.find? (fun x => x.id = pid) with
    | none =>
      simp only [updateTaskService, hp]
    | some p =>
      by_cases hpw : p.workspace = wid
      · cases ht : db.tasks.find? (fun t => t.id = tid) with
        | none =>
          simp only [updateTaskService, hp, ht]
          rw [if_neg (not_not_intro hpw)]
        | some task =>
          by_cases htp : task.project = pid
          · rw [updateTaskService_state db wid pid tid body p hp hpw task ht htp]
            exact map_proj_taskUpdate db.tasks tid body
          · simp only [updateTaskService, hp, ht]
            rw [if_neg (not_not_intro hpw), if_pos htp]
      · simp only [updateTaskService, hp]
        rw [if_pos hpw]

/-- Witness for C4: the invariant holds on `exDbW` and is kept by creating
a task under `p1` and by updating `t1`. -/
theorem task_workspace_invariant_witness :
    ((∀ p ∈ exDbW.projects, p.id = "p1" → p.workspace ≠ "w1") →
      (createTaskService exDbW "w1" "p1" "u1"
        { title := "T3", description := none, priority := "LOW",
          status := "TODO", assignedTo := none, dueDate := none }).1 =
        .error (.notFound "Project not found or does not belong to this workspace") ∧
      (createTaskService exDbW "w1" "p1" "u1"
        { title := "T3", description := none, priority := "LOW",
          status := "TODO", assignedTo := none, dueDate := none }).2 = exDbW) ∧
    taskWorkspaceInv (createTaskService exDbW "w1" "p1" "u1"
      { title := "T3", description := none, priority := "LOW",
        status := "TODO", assignedTo := none, dueDate := none }).2 ∧
    taskWorkspaceInv (updateTaskService exDbW "w1" "p1" "t1"
      { title := "T3", description := none, priority := "LOW",
        status := "TODO", assignedTo := none, dueDate := none }).2 ∧
    ((updateTaskService exDbW "w1" "p1" "t1"
        { title := "T3", description := none, priority := "LOW",
          status := "TODO", assignedTo := none, dueDate := none }).2.tasks.map
        (fun t => (t.id, t.project, t.workspace)) =
      exDbW.tasks.map (fun t => (t.id, t.project, t.workspace))) :=
  task_workspace_invariant exDbW "w1" "p1" "u1" "t1"
    { title := "T3", description := none, priority := "LOW",
      status := "TODO", assignedTo := none, dueDate := none }
    (by unfold projectIdsUnique; decide) (by unfold taskWorkspaceInv; decide)

/-- C1 counterexample: after `u1` successfully deletes `w1`, the other
member `u2`, whose `currentWorkspace` pointed at `w1`, is not repaired —
their pointer still reads `w1` although no membership of `u2` remains (the
member collection is empty) and the workspace itself is gone, so it is
neither the workspace of a remaining membership nor null. -/
theorem deleteWorkspace_other_user_not_repaired :
    (deleteWorkspaceService exDb1 "w1" "u1").1 = .ok none ∧
    (deleteWorkspaceService exDb1 "w1" "u1").2.members = [] ∧
    (deleteWorkspaceService exDb1 "w1" "u1").2.workspaces = [] ∧
    (deleteWorkspaceService exDb1 "w1" "u1").2.users =
      [{ id := "u1", email := "a@x", currentWorkspace := none },
       { id := "u2", email := "b@x", currentWorkspace := some "w1" }] ∧
    ¬ (∀ uPre ∈ exDb1.users, uPre.currentWorkspace = some "w1" →
        ∃ uPost ∈ (deleteWorkspaceService exDb1 "w1" "u1").2.users,
          uPost.id = uPre.id ∧
          (uPost.currentWorkspace = none ∨
           ∃ m ∈ (deleteWorkspaceService exDb1 "w1" "u1").2.members,
             m.userId = uPre.id ∧ uPost.currentWorkspace = some m.workspaceId)) := by
  decide

/-- C1 amended: a successful deleteWorkspaceService leaves no project,
task or member record referencing the deleted workspace and removes the
workspace itself; the acting user (the owner), if their `currentWorkspace`
pointed at the deleted workspace, has it repaired to the workspace of some
remaining membership of theirs or to null; all other users' records are
left untouched (in particular their `currentWorkspace` is not repaired). -/
theorem deleteWorkspace_cascade (db : DB) (wid uid : String) (cw : Option String) (db' : DB)
    (h : deleteWorkspaceService db wid uid = (.ok cw, db')) :
    (∀ p ∈ db'.projects, p.workspace ≠ wid) ∧
    (∀ t ∈ db'.tasks, t.workspace ≠ wid) ∧
    (∀ m ∈ db'.members, m.workspaceId ≠ wid) ∧
    (∀ w ∈ db'.workspaces, w.id ≠ wid) ∧
    (∀ u0, db.users.find? (fun u => u.id = uid) = some u0 →
      u0.currentWorkspace = some wid →
      ∃ u' ∈ db'.users, u'.id = uid ∧
        (u'.currentWorkspace = none ∨
         ∃ m ∈ db'.members, m.userId = uid ∧
           u'.currentWorkspace = some m.workspaceId)) ∧
    (∀ u ∈ db.users, u.id ≠ uid → u ∈ db'.users) := by
  unfold deleteWorkspaceService at h
  cases hc : deleteWorkspaceCore db wid uid with
  | error e =>
    rw [hc] at h
    simp at h
  | ok r =>
    obtain ⟨dbr, cwr⟩ := r
    rw [hc] at h
    simp only [Prod.mk.injEq, Except.ok.injEq] at h
    obtain ⟨hcweq, hdb⟩ := h
    subst hdb
    unfold deleteWorkspaceCore at hc
    cases hfw : db.workspaces.find? (fun x => x.id = wid) with
    | none =>
      simp [hfw] at hc
    | some w =>
      simp only [hfw] at hc
      by_cases hown : w.owner ≠ uid
      · rw [if_pos hown] at hc
        simp at hc
      · rw [if_neg hown] at hc
        cases hfu : db.users.find? (fun u => u.id = uid) with
        | none =>
          simp [hfu] at hc
        | some user =>
          simp only [hfu] at hc
          have huid : user.id = uid := by
            have h1 := List.find?_some hfu
            simpa using h1
          by_cases hcwp : user.currentWorkspace = some wid
          · rw [if_pos hcwp] at hc
            simp only [Except.ok.injEq, Prod.mk.injEq] at hc
            obtain ⟨hX, hY⟩ := hc
            subst hX
            refine ⟨?_, ?_, ?_, ?_, ?_, ?_⟩
            · intro x hx
              simpa using (List.mem_filter.mp hx).2
            · intro x hx
              simpa using (List.mem_filter.mp hx).2
            · intro x hx
              simpa using (List.mem_filter.mp hx).2
            · intro x hx
              simpa using (List.mem_filter.mp hx).2
            · intro u0 hfu0 _
              refine ⟨{ user with currentWorkspace :=
                  ((db.members.filter (fun m => m.workspaceId ≠ wid)).find?
                    (fun m => m.userId = uid)).map (fun m => m.workspaceId) },
                ?_, huid, ?_⟩
              · refine List.mem_map.mpr ⟨user, List.mem_of_find?_eq_some hfu, ?_⟩
                simp [huid]
              · cases hm : (db.members.filter (fun m => m.workspaceId ≠ wid)).find?
                    (fun m => m.userId = uid) with
                | none =>
                  left
                  simp [hm]
                | some m =>
                  right
                  refine ⟨m, List.mem_of_find?_eq_some hm, ?_, ?_⟩
                  · have h1 := List.find?_some hm
                    simpa using h1
                  · simp [hm]
            · intro u hu hneq
              refine List.mem_map.mpr ⟨u, hu, ?_⟩
              simp [hneq]
          · rw [if_neg hcwp] at hc
            simp only [Except.ok.injEq, Prod.mk.injEq] at hc
            obtain ⟨hX, hY⟩ := hc
            subst hX
            refine ⟨?_, ?_, ?_, ?_, ?_, ?_⟩
            · intro x hx
              simpa using (List.mem_filter.mp hx).2
            · intro x hx
              simpa using (List.mem_filter.mp hx).2
            · intro x hx
              simpa using (List.mem_filter.mp hx).2
            · intro x hx
              simpa using (List.mem_filter.mp hx).2
            · intro u0 hfu0 hcw0
              have hu0 : user = u0 := Option.some.inj hfu0
              rw [← hu0] at hcw0
              exact absurd hcw0 hcwp
            · intro u hu _
              exact hu

/-- Witness for C1: deleting `w1` from `exDb1` by its owner `u1` reaches
`exDb1After`, and the amended cascade facts hold there. -/
theorem deleteWorkspace_cascade_witness :
    (∀ p ∈ exDb1After.projects, p.workspace ≠ "w1") ∧
    (∀ t ∈ exDb1After.tasks, t.workspace ≠ "w1") ∧
    (∀ m ∈ exDb1After.members, m.workspaceId ≠ "w1") ∧
    (∀ w ∈ exDb1After.workspaces, w.id ≠ "w1") ∧
    (∀ u0, exDb1.users.find? (fun u => u.id = "u1") = some u0 →
      u0.currentWorkspace = some "w1" →
      ∃ u' ∈ exDb1After.users, u'.id = "u1" ∧
        (u'.currentWorkspace = none ∨
         ∃ m ∈ exDb1After.members, m.userId = "u1" ∧
           u'.currentWorkspace = some m.workspaceId)) ∧
    (∀ u ∈ exDb1.users, u.id ≠ "u1" → u ∈ exDb1After.users) :=
  deleteWorkspace_cascade exDb1 "w1" "u1" none exDb1After (by decide)

end B2B



